import Mathlib

/-!
Verification of the KineTrack exercise-analysis engine.

This file gives a shallow embedding of the two concrete analyzers
(PushupAnalyzer in pushup_analyzer.py and SquatAnalyzer in
squat_analyzer.py, both built on ExerciseAnalyzer in
exercise_analyzer.py) and proves or refutes the specified properties.

Modelling decisions:
* Python floats are modelled as rationals in the analyzer state machine
  (every operation there is field arithmetic, min and comparison) and as
  reals in the geometry (calculate_angle uses arctan2).
* The float value inf (initial min_hip_y_in_rep of the squat analyzer)
  is modelled as the value none of Option, with min and comparison
  extended accordingly.
* Feedback strings are modelled as an enumeration Msg; each constructor
  stands for one distinct Python string literal, so string equality is
  constructor equality.  The pushup except-branch return value (a
  one-element list holding a Python set with the KeyError) and the
  squat except-branch return value (a one-element list holding the
  string Missing landmark: ...) are modelled by the dedicated
  constructors pushupKeyError and squatMissingLandmark.
* get_landmark raises KeyError on the first absent landmark; a frame
  therefore carries one presence flag per required landmark, and
  first_missing replays the source lookup order.
* calculate_angle is transcendental, so the per-frame angles consumed by
  the analyzers (elbow angle, body angle, elbow flare angle, knee
  angles) enter the analyzer step as frame fields; calculate_angle
  itself is embedded separately over the reals and its range property is
  proved there.
* The straight-line statement sequence of each process_frame body is
  embedded as a composition of one named function per source block,
  applied in source order; each function carries the line numbers of
  the block it translates.
-/

set_option maxHeartbeats 1000000
set_option maxRecDepth 8000

namespace KineTrack

/-- The two stages of a repetition cycle; both analyzers start in up. -/
inductive Stage
  | up
  | down
deriving DecidableEq

/-- Landmark names required by the two analyzers. -/
inductive Landmark
  | right_shoulder
  | right_elbow
  | right_wrist
  | right_hip
  | right_ankle
  | left_hip
  | left_knee
  | left_ankle
  | right_knee
deriving DecidableEq

/-- Feedback values.  Each plain constructor stands for one distinct
feedback string literal of the source:
keepBackStraight = Keep your back straight!,
tuckElbows = Tuck your elbows in a bit!,
goDeeperPushups = Go deeper on your push-ups!,
slowDownReps = Slow down your reps!,
greatForm = Great form! Keep it up!,
pushKneesOut = Push your knees out!,
kneesFlareOut = Do not let your knees flare out too wide! (source text
uses an apostrophe),
goDeeperSquat = Go deeper!.
pushupKeyError lm models the pushup except-branch return element (a
Python set holding the KeyError for landmark lm); squatMissingLandmark
lm models the squat except-branch string Missing landmark: lm. -/
inductive Msg
  | keepBackStraight
  | tuckElbows
  | goDeeperPushups
  | slowDownReps
  | greatForm
  | pushKneesOut
  | kneesFlareOut
  | goDeeperSquat
  | pushupKeyError (lm : Landmark)
  | squatMissingLandmark (lm : Landmark)
deriving DecidableEq

/-- The session-log update of both analyzers (pushup_analyzer.py lines
137-141, squat_analyzer.py lines 106-110): walk the feedback of this
frame and append each item that is not yet in the log. -/
def logAppend (log : List Msg) (items : List Msg) : List Msg :=
  items.foldl (fun l m => if m ∈ l then l else l ++ [m]) log

/-- First-seen-order deduplication of a message sequence: the session
log that results from starting empty and appending each new message. -/
def firstSeen (items : List Msg) : List Msg :=
  logAppend [] items

/-- Exact rational numbers as unreduced fractions with a positive
denominator: the idealized value of a Python float.  Arithmetic is the
exact field arithmetic (no rounding); fractions are kept unreduced so
that every operation is a plain integer computation. -/
structure Frac where
  num : Int
  den : Nat
deriving DecidableEq

instance (n : Nat) : OfNat Frac n := ⟨⟨(n : Int), 1⟩⟩

instance : Add Frac :=
  ⟨fun a b => ⟨a.num * b.den + b.num * a.den, a.den * b.den⟩⟩

instance : Sub Frac :=
  ⟨fun a b => ⟨a.num * b.den - b.num * a.den, a.den * b.den⟩⟩

instance : Mul Frac :=
  ⟨fun a b => ⟨a.num * b.num, a.den * b.den⟩⟩

instance : Neg Frac :=
  ⟨fun a => ⟨-a.num, a.den⟩⟩

instance : Div Frac :=
  ⟨fun a b =>
    if 0 ≤ b.num then ⟨a.num * b.den, a.den * b.num.natAbs⟩
    else ⟨-(a.num * b.den), a.den * b.num.natAbs⟩⟩

/-- Python abs on a float value. -/
def Frac.abs (a : Frac) : Frac := ⟨(a.num.natAbs : Int), a.den⟩

instance : LT Frac :=
  ⟨fun a b => a.num * (b.den : Int) < b.num * (a.den : Int)⟩

instance : LE Frac :=
  ⟨fun a b => a.num * (b.den : Int) ≤ b.num * (a.den : Int)⟩

instance (a b : Frac) : Decidable (a < b) :=
  inferInstanceAs (Decidable (a.num * (b.den : Int) < b.num * (a.den : Int)))

instance (a b : Frac) : Decidable (a ≤ b) :=
  inferInstanceAs (Decidable (a.num * (b.den : Int) ≤ b.num * (a.den : Int)))

/-- Python min on two floats: the first argument when it is not larger. -/
instance : Min Frac :=
  ⟨fun a b => if a ≤ b then a else b⟩

namespace Pushup

/-- Debounce width (pushup_analyzer.py line 17). -/
def FRAME_BUFFER : ℕ := 3

/-- Exponential smoothing factor (line 20). -/
def smoothing_factor : Frac := 3/10

/-- Elbow angle must get below this for a credited rep (line 27). -/
def depth_threshold_angle : Frac := 100

/-- Smoothed elbow angle below this counts as a down frame (line 28). -/
def rep_threshold : Frac := 150

/-- Body angle below this triggers the back feedback (line 29). -/
def body_straight_angle_min : Frac := 150

/-- Elbow flare angle above this triggers the elbow feedback (line 30). -/
def elbow_flare_angle_max : Frac := 80

/-- Minimum plausible rep duration in seconds (line 31). -/
def rep_too_fast_seconds : Frac := 1

/-- Mutable state of a PushupAnalyzer instance (exercise_analyzer.py
lines 8-13 and pushup_analyzer.py lines 9-33). -/
structure State where
  rep_count : ℕ
  stage : Stage
  feedback_log : List Msg
  frame_count : ℕ
  last_feedback : Option Msg
  min_angle_in_rep : Frac
  up_frames : ℕ
  down_frames : ℕ
  smoothed_elbow_angle : Option Frac
  rep_start_time : Frac
  good_form_frames : ℕ
  good_form_bool : Bool
deriving DecidableEq

/-- State of a freshly constructed PushupAnalyzer. -/
def init : State :=
  { rep_count := 0
    stage := Stage.up
    feedback_log := []
    frame_count := 0
    last_feedback := none
    min_angle_in_rep := 180
    up_frames := 0
    down_frames := 0
    smoothed_elbow_angle := none
    rep_start_time := 0
    good_form_frames := 0
    good_form_bool := false }

/-- One input frame for the pushup analyzer.  The has_ flags record
which of the five required landmarks are present; the three angle
fields are the values of the three calculate_angle calls of
process_frame (lines 54, 63, 64): elbow_angle at the right elbow,
body_angle at the right hip, elbow_flare_angle at the right shoulder. -/
structure Frame where
  has_right_shoulder : Bool
  has_right_elbow : Bool
  has_right_wrist : Bool
  has_right_hip : Bool
  has_right_ankle : Bool
  elbow_angle : Frac
  body_angle : Frac
  elbow_flare_angle : Frac
  relative_time : Frac
deriving DecidableEq

/-- The first required landmark missing from the frame, in the lookup
order of process_frame lines 47-51; get_landmark raises KeyError there. -/
def Frame.first_missing (f : Frame) : Option Landmark :=
  if ¬ f.has_right_shoulder then some Landmark.right_shoulder
  else if ¬ f.has_right_elbow then some Landmark.right_elbow
  else if ¬ f.has_right_wrist then some Landmark.right_wrist
  else if ¬ f.has_right_hip then some Landmark.right_hip
  else if ¬ f.has_right_ankle then some Landmark.right_ankle
  else none

/-- The updated smoothed elbow angle (lines 55-62): the raw elbow angle
on the first processed frame, exponential smoothing afterwards. -/
def smoothedOf (s : State) (f : Frame) : Frac :=
  match s.smoothed_elbow_angle with
  | none => f.elbow_angle
  | some prev =>
      smoothing_factor * f.elbow_angle + (1 - smoothing_factor) * prev

/-- Store the updated smoothed elbow angle (lines 55-62). -/
def withSmoothed (s : State) (f : Frame) : State :=
  { s with smoothed_elbow_angle := some (smoothedOf s f) }

/-- Body straightness check (lines 66-74). -/
def checkBack (f : Frame) (s : State) (fb : List Msg) : State × List Msg :=
  if f.body_angle < body_straight_angle_min then
    let s1 : State := { s with good_form_bool := false }
    if s1.last_feedback = some Msg.keepBackStraight then (s1, fb)
    else ({ s1 with last_feedback := some Msg.keepBackStraight },
          fb ++ [Msg.keepBackStraight])
  else if s.last_feedback = some Msg.keepBackStraight then
    ({ s with last_feedback := none }, fb)
  else (s, fb)

/-- Elbow flare check (lines 76-84). -/
def checkFlare (f : Frame) (s : State) (fb : List Msg) : State × List Msg :=
  if elbow_flare_angle_max < f.elbow_flare_angle then
    let p :=
      if s.last_feedback = some Msg.tuckElbows then (s, fb)
      else ({ s with last_feedback := some Msg.tuckElbows },
            fb ++ [Msg.tuckElbows])
    ({ p.1 with good_form_bool := false }, p.2)
  else if s.last_feedback = some Msg.tuckElbows then
    ({ s with last_feedback := none }, fb)
  else (s, fb)

/-- Rep counting, depth and stage logic with frame buffer (lines
86-124).  smoothed is the already-updated smoothed elbow angle. -/
def stageStep (elbow_angle smoothed current_time : Frac)
    (s : State) (fb : List Msg) : State × List Msg :=
  let s1 : State :=
    if smoothed < rep_threshold then
      { s with down_frames := s.down_frames + 1, up_frames := 0 }
    else
      { s with up_frames := s.up_frames + 1, down_frames := 0 }
  if s1.stage = Stage.up ∧ FRAME_BUFFER ≤ s1.down_frames then
    ({ s1 with stage := Stage.down
               rep_start_time := current_time
               min_angle_in_rep := elbow_angle }, fb)
  else if s1.stage = Stage.down then
    let s2 : State := { s1 with
      min_angle_in_rep := min s1.min_angle_in_rep elbow_angle }
    if FRAME_BUFFER ≤ s2.up_frames then
      let s3 : State := { s2 with stage := Stage.up }
      let p :=
        if depth_threshold_angle < s3.min_angle_in_rep then
          ({ s3 with good_form_bool := false }, fb ++ [Msg.goDeeperPushups])
        else
          ({ s3 with rep_count := s3.rep_count + 1 }, fb)
      let q :=
        if current_time - p.1.rep_start_time < rep_too_fast_seconds
             ∧ 0 < p.1.rep_start_time then
          ({ p.1 with good_form_bool := false }, p.2 ++ [Msg.slowDownReps])
        else p
      ({ q.1 with rep_start_time := 0, min_angle_in_rep := 180 }, q.2)
    else (s2, fb)
  else (s1, fb)

/-- Positive reinforcement streak (lines 127-135). -/
def goodFormStep (s : State) (fb : List Msg) : State × List Msg :=
  if s.good_form_bool then
    let s1 : State := { s with good_form_frames := s.good_form_frames + 1 }
    if 8 ≤ s1.good_form_frames then
      ({ s1 with good_form_frames := 0 }, fb ++ [Msg.greatForm])
    else (s1, fb)
  else ({ s with good_form_frames := 0 }, fb)

/-- Pair form of the body straightness check, starting from the empty
feedback list of line 42. -/
def backPair (f : Frame) (s : State) : State × List Msg :=
  checkBack f s []

/-- Pair form of the elbow flare check. -/
def flarePair (f : Frame) (p : State × List Msg) : State × List Msg :=
  checkFlare f p.1 p.2

/-- Pair form of the stage machine. -/
def stagePair (f : Frame) (sm : Frac) (p : State × List Msg) :
    State × List Msg :=
  stageStep f.elbow_angle sm f.relative_time p.1 p.2

/-- Pair form of the positive reinforcement streak. -/
def goodFormPair (p : State × List Msg) : State × List Msg :=
  goodFormStep p.1 p.2

/-- Session-log update and return (lines 137-143). -/
def finishLog (p : State × List Msg) : State × List Msg :=
  ({ p.1 with feedback_log := logAppend p.1.feedback_log p.2 }, p.2)

/-- Body of the try block after the landmark lookups (lines 53-143),
in source statement order. -/
def core (s : State) (f : Frame) : State × List Msg :=
  finishLog (goodFormPair (stagePair f (smoothedOf s f)
    (flarePair f (backPair f (withSmoothed s f)))))

/-- The statements before the try block (lines 39-43): bump frame_count
and reset good_form_bool to true. -/
def enterFrame (s : State) : State :=
  { s with frame_count := s.frame_count + 1, good_form_bool := true }

/-- PushupAnalyzer.process_frame (lines 35-148).  A missing landmark
makes the lookups raise KeyError e and the except branch return the
one-element list holding the set with e (line 146). -/
def process_frame (s : State) (f : Frame) : State × List Msg :=
  match f.first_missing with
  | some lm => (enterFrame s, [Msg.pushupKeyError lm])
  | none => core (enterFrame s) f

/-- Run a frame sequence from a given state. -/
def runFrom (s : State) (fs : List Frame) : State :=
  fs.foldl (fun t f => (process_frame t f).1) s

/-- Run a frame sequence on a fresh analyzer. -/
def run (fs : List Frame) : State :=
  runFrom init fs

/-- Concatenation of the feedback returned on the frames of a run that
did not hit the missing-landmark except branch. -/
def emittedFrom : State → List Frame → List Msg
  | _, [] => []
  | s, f :: fs =>
      (if (f.first_missing).isSome then [] else (process_frame s f).2)
        ++ emittedFrom (process_frame s f).1 fs

/-- Same, from a fresh analyzer. -/
def emitted (fs : List Frame) : List Msg :=
  emittedFrom init fs

end Pushup

namespace Squat

/-- Debounce width (squat_analyzer.py line 16). -/
def FRAME_BUFFER : ℕ := 3

/-- Average knee angle above this counts as an up frame (line 22). -/
def rep_threshold_angle : Frac := 160

/-- Source name depth_threshold_ratio (line 25): the factor applied to
the average knee height in the depth comparison. -/
def depth_threshold : Frac := 1

/-- Source name knee_caving_threshold_ratio (line 28). -/
def knee_caving_threshold : Frac := 4/5

/-- Source name knee_splaying_threshold_ratio (line 29). -/
def knee_splaying_threshold : Frac := 7/5

/-- Mutable state of a SquatAnalyzer instance (exercise_analyzer.py
lines 8-13 and squat_analyzer.py lines 9-29).  min_hip_y_in_rep none
models the float value inf. -/
structure State where
  rep_count : ℕ
  stage : Stage
  feedback_log : List Msg
  frame_count : ℕ
  min_hip_y_in_rep : Option Frac
  up_frames : ℕ
  down_frames : ℕ
deriving DecidableEq

/-- State of a freshly constructed SquatAnalyzer. -/
def init : State :=
  { rep_count := 0
    stage := Stage.up
    feedback_log := []
    frame_count := 0
    min_hip_y_in_rep := none
    up_frames := 0
    down_frames := 0 }

/-- One input frame for the squat analyzer: presence flags for the six
required landmarks, the two calculate_angle values (lines 51-52) and
the coordinates read by lines 56-57 and 79-80. -/
structure Frame where
  has_left_hip : Bool
  has_left_knee : Bool
  has_left_ankle : Bool
  has_right_hip : Bool
  has_right_knee : Bool
  has_right_ankle : Bool
  left_knee_angle : Frac
  right_knee_angle : Frac
  left_hip_y : Frac
  right_hip_y : Frac
  left_knee_y : Frac
  right_knee_y : Frac
  left_knee_x : Frac
  right_knee_x : Frac
  left_ankle_x : Frac
  right_ankle_x : Frac
deriving DecidableEq

/-- The first required landmark missing from the frame, in the lookup
order of process_frame lines 41-47. -/
def Frame.first_missing (f : Frame) : Option Landmark :=
  if ¬ f.has_left_hip then some Landmark.left_hip
  else if ¬ f.has_left_knee then some Landmark.left_knee
  else if ¬ f.has_left_ankle then some Landmark.left_ankle
  else if ¬ f.has_right_hip then some Landmark.right_hip
  else if ¬ f.has_right_knee then some Landmark.right_knee
  else if ¬ f.has_right_ankle then some Landmark.right_ankle
  else none

/-- Average of the two knee angles (line 53). -/
def avgKneeAngle (f : Frame) : Frac :=
  (f.left_knee_angle + f.right_knee_angle) / 2

/-- Average hip height (line 56). -/
def avgHipY (f : Frame) : Frac :=
  (f.left_hip_y + f.right_hip_y) / 2

/-- Average knee height (line 57). -/
def avgKneeY (f : Frame) : Frac :=
  (f.left_knee_y + f.right_knee_y) / 2

/-- Python min with a possible inf on the left (line 76). -/
def floatMin (cur : Option Frac) (y : Frac) : Frac :=
  match cur with
  | none => y
  | some m => min m y

/-- Python strict greater-than with a possible inf on the left
(line 96); inf is greater than everything. -/
def floatGT (cur : Option Frac) (bound : Frac) : Bool :=
  match cur with
  | none => true
  | some m => bound < m

/-- The DOWN-dwell branch (lines 74-103): track the lowest hip
position, run the knee caving and splaying check, and on enough up
frames finish the rep attempt with the depth check. -/
def dwellStep (f : Frame) (avg_hip_y avg_knee_y : Frac)
    (s : State) : State × List Msg :=
  let s1 : State := { s with
    min_hip_y_in_rep := some (floatMin s.min_hip_y_in_rep avg_hip_y) }
  let knee_dist : Frac := (f.left_knee_x - f.right_knee_x).abs
  let ankle_dist : Frac := (f.left_ankle_x - f.right_ankle_x).abs
  let fb : List Msg :=
    if 0 < ankle_dist then
      let knee_to_ankle := knee_dist / ankle_dist
      if knee_to_ankle < knee_caving_threshold then [Msg.pushKneesOut]
      else if knee_splaying_threshold < knee_to_ankle then
        [Msg.kneesFlareOut]
      else []
    else []
  if FRAME_BUFFER ≤ s1.up_frames then
    let s2 : State := { s1 with stage := Stage.up }
    let p :=
      if floatGT s2.min_hip_y_in_rep (avg_knee_y * depth_threshold) then
        (s2, fb ++ [Msg.goDeeperSquat])
      else ({ s2 with rep_count := s2.rep_count + 1 }, fb)
    ({ p.1 with min_hip_y_in_rep := none }, p.2)
  else (s1, fb)

/-- Hysteresis counter update (lines 60-65). -/
def countersUpdate (f : Frame) (s : State) : State :=
  if rep_threshold_angle < avgKneeAngle f then
    { s with up_frames := s.up_frames + 1, down_frames := 0 }
  else
    { s with down_frames := s.down_frames + 1, up_frames := 0 }

/-- The stage branch (lines 67-103): enter the dwell on enough down
frames, otherwise run the dwell when already down, otherwise nothing. -/
def stageBranch (f : Frame) (s : State) : State × List Msg :=
  if s.stage = Stage.up ∧ FRAME_BUFFER ≤ s.down_frames then
    ({ s with stage := Stage.down
              min_hip_y_in_rep := some (avgHipY f) }, [])
  else if s.stage = Stage.down then
    dwellStep f (avgHipY f) (avgKneeY f) s
  else (s, [])

/-- Session-log update and return (lines 105-112). -/
def finishLog (p : State × List Msg) : State × List Msg :=
  ({ p.1 with feedback_log := logAppend p.1.feedback_log p.2 }, p.2)

/-- The statement before the try block (line 35). -/
def enterFrame (s : State) : State :=
  { s with frame_count := s.frame_count + 1 }

/-- SquatAnalyzer.process_frame (lines 31-117).  A missing landmark
makes the lookups raise KeyError and the except branch return the
one-element list with the Missing landmark string (line 115). -/
def process_frame (s : State) (f : Frame) : State × List Msg :=
  match f.first_missing with
  | some lm => (enterFrame s, [Msg.squatMissingLandmark lm])
  | none => finishLog (stageBranch f (countersUpdate f (enterFrame s)))

/-- Run a frame sequence from a given state. -/
def runFrom (s : State) (fs : List Frame) : State :=
  fs.foldl (fun t f => (process_frame t f).1) s

/-- Run a frame sequence on a fresh analyzer. -/
def run (fs : List Frame) : State :=
  runFrom init fs

/-- Concatenation of the feedback returned on the frames of a run that
did not hit the missing-landmark except branch. -/
def emittedFrom : State → List Frame → List Msg
  | _, [] => []
  | s, f :: fs =>
      (if (f.first_missing).isSome then [] else (process_frame s f).2)
        ++ emittedFrom (process_frame s f).1 fs

/-- Same, from a fresh analyzer. -/
def emitted (fs : List Frame) : List Msg :=
  emittedFrom init fs

end Squat

/-- The two-argument arctangent, numpy arctan2: the argument of the
complex number x + y i, in the interval (-pi, pi], with
arctan2 0 0 = 0. -/
noncomputable def arctan2 (y x : ℝ) : ℝ :=
  Complex.arg ⟨x, y⟩

/-- ExerciseAnalyzer.calculate_angle (exercise_analyzer.py lines
37-52): the absolute difference of the arctan2 bearings of the rays
b to c and b to a, in degrees, folded by 360 minus the value when it
exceeds 180. -/
noncomputable def calculate_angle (a b c : ℝ × ℝ) : ℝ :=
  let radians : ℝ :=
    arctan2 (c.2 - b.2) (c.1 - b.1) - arctan2 (a.2 - b.2) (a.1 - b.1)
  let angle : ℝ := |radians * 180 / Real.pi|
  if 180 < angle then 360 - angle else angle

/-! ### Session-log helper lemmas -/

theorem logAppend_nil (log : List Msg) : logAppend log [] = log := rfl

theorem logAppend_cons (log : List Msg) (m : Msg) (items : List Msg) :
    logAppend log (m :: items) =
      logAppend (if m ∈ log then log else log ++ [m]) items := rfl

theorem logAppend_append (l a b : List Msg) :
    logAppend l (a ++ b) = logAppend (logAppend l a) b := by
  simp [logAppend, List.foldl_append]

theorem logAppend_nodup (items : List Msg) :
    ∀ log : List Msg, log.Nodup → (logAppend log items).Nodup := by
  induction items with
  | nil => intro log h; simpa [logAppend] using h
  | cons m items ih =>
      intro log h
      rw [logAppend_cons]
      apply ih
      by_cases hm : m ∈ log
      · simpa [hm] using h
      · simp only [hm, if_false]
        simpa [List.nodup_append] using ⟨h, hm⟩

theorem logAppend_extends (items : List Msg) :
    ∀ log : List Msg, log <+: logAppend log items := by
  induction items with
  | nil => intro log; exact ⟨[], by simp [logAppend]⟩
  | cons m items ih =>
      intro log
      rw [logAppend_cons]
      by_cases hm : m ∈ log
      · simpa [hm] using ih log
      · simp only [hm, if_false]
        exact (List.prefix_append log [m]).trans (ih (log ++ [m]))

theorem mem_logAppend (items : List Msg) :
    ∀ (log : List Msg) (x : Msg),
      x ∈ logAppend log items ↔ x ∈ log ∨ x ∈ items := by
  induction items with
  | nil => intro log x; simp [logAppend]
  | cons m items ih =>
      intro log x
      rw [logAppend_cons]
      by_cases hm : m ∈ log
      · rw [if_pos hm, ih]
        constructor
        · rintro (h | h)
          · exact Or.inl h
          · exact Or.inr (List.mem_cons_of_mem m h)
        · rintro (h | h)
          · exact Or.inl h
          · rcases List.mem_cons.mp h with rfl | h
            · exact Or.inl hm
            · exact Or.inr h
      · rw [if_neg hm, ih]
        simp only [List.mem_append, List.mem_singleton, List.mem_cons]
        tauto

namespace Pushup

/-! ### Projection lemmas for the pushup pipeline -/

@[simp] theorem backPair_rep_count (f : Frame) (s : State) :
    (backPair f s).1.rep_count = s.rep_count := by
  simp only [backPair, checkBack]; split_ifs <;> rfl

@[simp] theorem backPair_stage (f : Frame) (s : State) :
    (backPair f s).1.stage = s.stage := by
  simp only [backPair, checkBack]; split_ifs <;> rfl

@[simp] theorem backPair_frame_count (f : Frame) (s : State) :
    (backPair f s).1.frame_count = s.frame_count := by
  simp only [backPair, checkBack]; split_ifs <;> rfl

@[simp] theorem backPair_feedback_log (f : Frame) (s : State) :
    (backPair f s).1.feedback_log = s.feedback_log := by
  simp only [backPair, checkBack]; split_ifs <;> rfl

@[simp] theorem backPair_min_angle (f : Frame) (s : State) :
    (backPair f s).1.min_angle_in_rep = s.min_angle_in_rep := by
  simp only [backPair, checkBack]; split_ifs <;> rfl

@[simp] theorem backPair_up_frames (f : Frame) (s : State) :
    (backPair f s).1.up_frames = s.up_frames := by
  simp only [backPair, checkBack]; split_ifs <;> rfl

@[simp] theorem backPair_down_frames (f : Frame) (s : State) :
    (backPair f s).1.down_frames = s.down_frames := by
  simp only [backPair, checkBack]; split_ifs <;> rfl

@[simp] theorem backPair_smoothed (f : Frame) (s : State) :
    (backPair f s).1.smoothed_elbow_angle = s.smoothed_elbow_angle := by
  simp only [backPair, checkBack]; split_ifs <;> rfl

@[simp] theorem backPair_rep_start (f : Frame) (s : State) :
    (backPair f s).1.rep_start_time = s.rep_start_time := by
  simp only [backPair, checkBack]; split_ifs <;> rfl

@[simp] theorem backPair_good_form_frames (f : Frame) (s : State) :
    (backPair f s).1.good_form_frames = s.good_form_frames := by
  simp only [backPair, checkBack]; split_ifs <;> rfl

@[simp] theorem flarePair_rep_count (f : Frame) (p : State × List Msg) :
    (flarePair f p).1.rep_count = p.1.rep_count := by
  simp only [flarePair, checkFlare]; split_ifs <;> rfl

@[simp] theorem flarePair_stage (f : Frame) (p : State × List Msg) :
    (flarePair f p).1.stage = p.1.stage := by
  simp only [flarePair, checkFlare]; split_ifs <;> rfl

@[simp] theorem flarePair_frame_count (f : Frame) (p : State × List Msg) :
    (flarePair f p).1.frame_count = p.1.frame_count := by
  simp only [flarePair, checkFlare]; split_ifs <;> rfl

@[simp] theorem flarePair_feedback_log (f : Frame) (p : State × List Msg) :
    (flarePair f p).1.feedback_log = p.1.feedback_log := by
  simp only [flarePair, checkFlare]; split_ifs <;> rfl

@[simp] theorem flarePair_min_angle (f : Frame) (p : State × List Msg) :
    (flarePair f p).1.min_angle_in_rep = p.1.min_angle_in_rep := by
  simp only [flarePair, checkFlare]; split_ifs <;> rfl

@[simp] theorem flarePair_up_frames (f : Frame) (p : State × List Msg) :
    (flarePair f p).1.up_frames = p.1.up_frames := by
  simp only [flarePair, checkFlare]; split_ifs <;> rfl

@[simp] theorem flarePair_down_frames (f : Frame) (p : State × List Msg) :
    (flarePair f p).1.down_frames = p.1.down_frames := by
  simp only [flarePair, checkFlare]; split_ifs <;> rfl

@[simp] theorem flarePair_smoothed (f : Frame) (p : State × List Msg) :
    (flarePair f p).1.smoothed_elbow_angle = p.1.smoothed_elbow_angle := by
  simp only [flarePair, checkFlare]; split_ifs <;> rfl

@[simp] theorem flarePair_rep_start (f : Frame) (p : State × List Msg) :
    (flarePair f p).1.rep_start_time = p.1.rep_start_time := by
  simp only [flarePair, checkFlare]; split_ifs <;> rfl

@[simp] theorem flarePair_good_form_frames (f : Frame) (p : State × List Msg) :
    (flarePair f p).1.good_form_frames = p.1.good_form_frames := by
  simp only [flarePair, checkFlare]; split_ifs <;> rfl

@[simp] theorem stagePair_frame_count (f : Frame) (sm : Frac)
    (p : State × List Msg) :
    (stagePair f sm p).1.frame_count = p.1.frame_count := by
  simp only [stagePair, stageStep]; split_ifs <;> rfl

@[simp] theorem stagePair_feedback_log (f : Frame) (sm : Frac)
    (p : State × List Msg) :
    (stagePair f sm p).1.feedback_log = p.1.feedback_log := by
  simp only [stagePair, stageStep]; split_ifs <;> rfl

@[simp] theorem stagePair_last_feedback (f : Frame) (sm : Frac)
    (p : State × List Msg) :
    (stagePair f sm p).1.last_feedback = p.1.last_feedback := by
  simp only [stagePair, stageStep]; split_ifs <;> rfl

@[simp] theorem stagePair_smoothed (f : Frame) (sm : Frac)
    (p : State × List Msg) :
    (stagePair f sm p).1.smoothed_elbow_angle = p.1.smoothed_elbow_angle := by
  simp only [stagePair, stageStep]; split_ifs <;> rfl

@[simp] theorem goodFormPair_rep_count (p : State × List Msg) :
    (goodFormPair p).1.rep_count = p.1.rep_count := by
  simp only [goodFormPair, goodFormStep]; split_ifs <;> rfl

@[simp] theorem goodFormPair_stage (p : State × List Msg) :
    (goodFormPair p).1.stage = p.1.stage := by
  simp only [goodFormPair, goodFormStep]; split_ifs <;> rfl

@[simp] theorem goodFormPair_frame_count (p : State × List Msg) :
    (goodFormPair p).1.frame_count = p.1.frame_count := by
  simp only [goodFormPair, goodFormStep]; split_ifs <;> rfl

@[simp] theorem goodFormPair_feedback_log (p : State × List Msg) :
    (goodFormPair p).1.feedback_log = p.1.feedback_log := by
  simp only [goodFormPair, goodFormStep]; split_ifs <;> rfl

@[simp] theorem goodFormPair_last_feedback (p : State × List Msg) :
    (goodFormPair p).1.last_feedback = p.1.last_feedback := by
  simp only [goodFormPair, goodFormStep]; split_ifs <;> rfl

@[simp] theorem goodFormPair_min_angle (p : State × List Msg) :
    (goodFormPair p).1.min_angle_in_rep = p.1.min_angle_in_rep := by
  simp only [goodFormPair, goodFormStep]; split_ifs <;> rfl

@[simp] theorem goodFormPair_up_frames (p : State × List Msg) :
    (goodFormPair p).1.up_frames = p.1.up_frames := by
  simp only [goodFormPair, goodFormStep]; split_ifs <;> rfl

@[simp] theorem goodFormPair_down_frames (p : State × List Msg) :
    (goodFormPair p).1.down_frames = p.1.down_frames := by
  simp only [goodFormPair, goodFormStep]; split_ifs <;> rfl

@[simp] theorem goodFormPair_smoothed (p : State × List Msg) :
    (goodFormPair p).1.smoothed_elbow_angle = p.1.smoothed_elbow_angle := by
  simp only [goodFormPair, goodFormStep]; split_ifs <;> rfl

@[simp] theorem goodFormPair_rep_start (p : State × List Msg) :
    (goodFormPair p).1.rep_start_time = p.1.rep_start_time := by
  simp only [goodFormPair, goodFormStep]; split_ifs <;> rfl

@[simp] theorem finishLog_rep_count (p : State × List Msg) :
    (finishLog p).1.rep_count = p.1.rep_count := rfl

@[simp] theorem finishLog_stage (p : State × List Msg) :
    (finishLog p).1.stage = p.1.stage := rfl

@[simp] theorem finishLog_frame_count (p : State × List Msg) :
    (finishLog p).1.frame_count = p.1.frame_count := rfl

@[simp] theorem finishLog_last_feedback (p : State × List Msg) :
    (finishLog p).1.last_feedback = p.1.last_feedback := rfl

@[simp] theorem finishLog_up_frames (p : State × List Msg) :
    (finishLog p).1.up_frames = p.1.up_frames := rfl

@[simp] theorem finishLog_down_frames (p : State × List Msg) :
    (finishLog p).1.down_frames = p.1.down_frames := rfl

@[simp] theorem finishLog_feedback_log (p : State × List Msg) :
    (finishLog p).1.feedback_log = logAppend p.1.feedback_log p.2 := rfl

@[simp] theorem finishLog_snd (p : State × List Msg) :
    (finishLog p).2 = p.2 := rfl

@[simp] theorem withSmoothed_rep_count (s : State) (f : Frame) :
    (withSmoothed s f).rep_count = s.rep_count := rfl

@[simp] theorem withSmoothed_stage (s : State) (f : Frame) :
    (withSmoothed s f).stage = s.stage := rfl

@[simp] theorem withSmoothed_frame_count (s : State) (f : Frame) :
    (withSmoothed s f).frame_count = s.frame_count := rfl

@[simp] theorem withSmoothed_feedback_log (s : State) (f : Frame) :
    (withSmoothed s f).feedback_log = s.feedback_log := rfl

@[simp] theorem withSmoothed_last_feedback (s : State) (f : Frame) :
    (withSmoothed s f).last_feedback = s.last_feedback := rfl

@[simp] theorem withSmoothed_up_frames (s : State) (f : Frame) :
    (withSmoothed s f).up_frames = s.up_frames := rfl

@[simp] theorem withSmoothed_down_frames (s : State) (f : Frame) :
    (withSmoothed s f).down_frames = s.down_frames := rfl

@[simp] theorem enterFrame_rep_count (s : State) :
    (enterFrame s).rep_count = s.rep_count := rfl

@[simp] theorem enterFrame_stage (s : State) :
    (enterFrame s).stage = s.stage := rfl

@[simp] theorem enterFrame_frame_count (s : State) :
    (enterFrame s).frame_count = s.frame_count + 1 := rfl

@[simp] theorem enterFrame_feedback_log (s : State) :
    (enterFrame s).feedback_log = s.feedback_log := rfl

@[simp] theorem enterFrame_last_feedback (s : State) :
    (enterFrame s).last_feedback = s.last_feedback := rfl

@[simp] theorem enterFrame_up_frames (s : State) :
    (enterFrame s).up_frames = s.up_frames := rfl

@[simp] theorem enterFrame_down_frames (s : State) :
    (enterFrame s).down_frames = s.down_frames := rfl

/-- The one case analysis of the pushup stage machine that the claims
need: either stage and rep_count are untouched, or UP fired to DOWN
with the updated down-frame counter at the buffer and rep_count
untouched, or DOWN fired to UP with the updated up-frame counter at the
buffer and rep_count grown by zero or one. -/
theorem stagePair_cases (f : Frame) (sm : Frac) (p : State × List Msg) :
    ((stagePair f sm p).1.stage = p.1.stage ∧
     (stagePair f sm p).1.rep_count = p.1.rep_count) ∨
    (p.1.stage = Stage.up ∧ (stagePair f sm p).1.stage = Stage.down ∧
     FRAME_BUFFER ≤ (stagePair f sm p).1.down_frames ∧
     (stagePair f sm p).1.rep_count = p.1.rep_count) ∨
    (p.1.stage = Stage.down ∧ (stagePair f sm p).1.stage = Stage.up ∧
     FRAME_BUFFER ≤ (stagePair f sm p).1.up_frames ∧
     ((stagePair f sm p).1.rep_count = p.1.rep_count ∨
      (stagePair f sm p).1.rep_count = p.1.rep_count + 1)) := by
  simp only [stagePair, stageStep]
  split_ifs <;> simp_all

end Pushup

namespace Squat

/-! ### Projection lemmas for the squat pipeline -/

@[simp] theorem countersUpdate_rep_count (f : Frame) (s : State) :
    (countersUpdate f s).rep_count = s.rep_count := by
  simp only [countersUpdate]; split_ifs <;> rfl

@[simp] theorem countersUpdate_stage (f : Frame) (s : State) :
    (countersUpdate f s).stage = s.stage := by
  simp only [countersUpdate]; split_ifs <;> rfl

@[simp] theorem countersUpdate_frame_count (f : Frame) (s : State) :
    (countersUpdate f s).frame_count = s.frame_count := by
  simp only [countersUpdate]; split_ifs <;> rfl

@[simp] theorem countersUpdate_feedback_log (f : Frame) (s : State) :
    (countersUpdate f s).feedback_log = s.feedback_log := by
  simp only [countersUpdate]; split_ifs <;> rfl

@[simp] theorem countersUpdate_min_hip (f : Frame) (s : State) :
    (countersUpdate f s).min_hip_y_in_rep = s.min_hip_y_in_rep := by
  simp only [countersUpdate]; split_ifs <;> rfl

@[simp] theorem stageBranch_frame_count (f : Frame) (s : State) :
    (stageBranch f s).1.frame_count = s.frame_count := by
  simp only [stageBranch, dwellStep]; split_ifs <;> rfl

@[simp] theorem stageBranch_feedback_log (f : Frame) (s : State) :
    (stageBranch f s).1.feedback_log = s.feedback_log := by
  simp only [stageBranch, dwellStep]; split_ifs <;> rfl

@[simp] theorem stageBranch_up_frames (f : Frame) (s : State) :
    (stageBranch f s).1.up_frames = s.up_frames := by
  simp only [stageBranch, dwellStep]; split_ifs <;> rfl

@[simp] theorem stageBranch_down_frames (f : Frame) (s : State) :
    (stageBranch f s).1.down_frames = s.down_frames := by
  simp only [stageBranch, dwellStep]; split_ifs <;> rfl

@[simp] theorem sq_finishLog_rep_count (p : State × List Msg) :
    (finishLog p).1.rep_count = p.1.rep_count := rfl

@[simp] theorem sq_finishLog_stage (p : State × List Msg) :
    (finishLog p).1.stage = p.1.stage := rfl

@[simp] theorem sq_finishLog_frame_count (p : State × List Msg) :
    (finishLog p).1.frame_count = p.1.frame_count := rfl

@[simp] theorem sq_finishLog_up_frames (p : State × List Msg) :
    (finishLog p).1.up_frames = p.1.up_frames := rfl

@[simp] theorem sq_finishLog_down_frames (p : State × List Msg) :
    (finishLog p).1.down_frames = p.1.down_frames := rfl

@[simp] theorem sq_finishLog_feedback_log (p : State × List Msg) :
    (finishLog p).1.feedback_log = logAppend p.1.feedback_log p.2 := rfl

@[simp] theorem sq_finishLog_snd (p : State × List Msg) :
    (finishLog p).2 = p.2 := rfl

@[simp] theorem sq_enterFrame_rep_count (s : State) :
    (enterFrame s).rep_count = s.rep_count := rfl

@[simp] theorem sq_enterFrame_stage (s : State) :
    (enterFrame s).stage = s.stage := rfl

@[simp] theorem sq_enterFrame_frame_count (s : State) :
    (enterFrame s).frame_count = s.frame_count + 1 := rfl

@[simp] theorem sq_enterFrame_feedback_log (s : State) :
    (enterFrame s).feedback_log = s.feedback_log := rfl

@[simp] theorem sq_enterFrame_min_hip (s : State) :
    (enterFrame s).min_hip_y_in_rep = s.min_hip_y_in_rep := rfl

@[simp] theorem sq_enterFrame_up_frames (s : State) :
    (enterFrame s).up_frames = s.up_frames := rfl

@[simp] theorem sq_enterFrame_down_frames (s : State) :
    (enterFrame s).down_frames = s.down_frames := rfl

/-- Case analysis of the squat stage branch: either stage and rep_count
are untouched, or UP fired to DOWN with the down-frame counter at the
buffer and rep_count untouched, or DOWN fired to UP with the up-frame
counter at the buffer and rep_count grown by zero or one. -/
theorem stageBranch_cases (f : Frame) (s : State) :
    ((stageBranch f s).1.stage = s.stage ∧
     (stageBranch f s).1.rep_count = s.rep_count) ∨
    (s.stage = Stage.up ∧ (stageBranch f s).1.stage = Stage.down ∧
     FRAME_BUFFER ≤ (stageBranch f s).1.down_frames ∧
     (stageBranch f s).1.rep_count = s.rep_count) ∨
    (s.stage = Stage.down ∧ (stageBranch f s).1.stage = Stage.up ∧
     FRAME_BUFFER ≤ (stageBranch f s).1.up_frames ∧
     ((stageBranch f s).1.rep_count = s.rep_count ∨
      (stageBranch f s).1.rep_count = s.rep_count + 1)) := by
  simp only [stageBranch, dwellStep]
  split_ifs <;> simp_all

end Squat

namespace Pushup

/-! ### Per-call lemmas for the pushup analyzer -/

/-- A missing landmark: the except branch fires, returning the
one-element error list; only frame_count and good_form_bool (set before
the try block) change. -/
theorem process_frame_missing (s : State) (f : Frame) (lm : Landmark)
    (h : f.first_missing = some lm) :
    process_frame s f = (enterFrame s, [Msg.pushupKeyError lm]) := by
  simp [process_frame, h]

/-- frame_count is bumped by exactly one on every call. -/
theorem process_frame_frame_count (s : State) (f : Frame) :
    (process_frame s f).1.frame_count = s.frame_count + 1 := by
  cases hfm : f.first_missing with
  | some lm => simp [process_frame, hfm, enterFrame]
  | none => simp [process_frame, hfm, core]

/-- Stage transitions happen only through the debounced machine. -/
theorem process_frame_stage_cases (s : State) (f : Frame) :
    (process_frame s f).1.stage = s.stage ∨
    (s.stage = Stage.up ∧ (process_frame s f).1.stage = Stage.down ∧
      FRAME_BUFFER ≤ (process_frame s f).1.down_frames) ∨
    (s.stage = Stage.down ∧ (process_frame s f).1.stage = Stage.up ∧
      FRAME_BUFFER ≤ (process_frame s f).1.up_frames) := by
  cases hfm : f.first_missing with
  | some lm => left; simp [process_frame, hfm, enterFrame]
  | none =>
      have h := stagePair_cases f (smoothedOf (enterFrame s) f)
        (flarePair f (backPair f (withSmoothed (enterFrame s) f)))
      simp only [flarePair_stage, backPair_stage, withSmoothed_stage,
        enterFrame_stage, flarePair_rep_count, backPair_rep_count,
        withSmoothed_rep_count, enterFrame_rep_count] at h
      simp only [process_frame, hfm, core, finishLog_stage,
        goodFormPair_stage, finishLog_up_frames, finishLog_down_frames,
        goodFormPair_up_frames, goodFormPair_down_frames]
      tauto

/-- rep_count grows by zero or one on every call. -/
theorem process_frame_rep_cases (s : State) (f : Frame) :
    (process_frame s f).1.rep_count = s.rep_count ∨
    (process_frame s f).1.rep_count = s.rep_count + 1 := by
  cases hfm : f.first_missing with
  | some lm => left; simp [process_frame, hfm, enterFrame]
  | none =>
      have h := stagePair_cases f (smoothedOf (enterFrame s) f)
        (flarePair f (backPair f (withSmoothed (enterFrame s) f)))
      simp only [flarePair_stage, backPair_stage, withSmoothed_stage,
        enterFrame_stage, flarePair_rep_count, backPair_rep_count,
        withSmoothed_rep_count, enterFrame_rep_count] at h
      simp only [process_frame, hfm, core, finishLog_rep_count,
        goodFormPair_rep_count]
      tauto

/-- On a normal frame the session log is the dedup-append of the
returned feedback; on a missing-landmark frame it is untouched. -/
theorem process_frame_log (s : State) (f : Frame) :
    (process_frame s f).1.feedback_log =
      if (f.first_missing).isSome then s.feedback_log
      else logAppend s.feedback_log (process_frame s f).2 := by
  cases hfm : f.first_missing with
  | some lm => simp [process_frame, hfm, enterFrame]
  | none => simp [process_frame, hfm, core]

end Pushup

namespace Squat

/-! ### Per-call lemmas for the squat analyzer -/

/-- A missing landmark: the except branch fires, returning the
one-element error list; only frame_count changes. -/
theorem sq_process_frame_missing (s : State) (f : Frame) (lm : Landmark)
    (h : f.first_missing = some lm) :
    process_frame s f = (enterFrame s, [Msg.squatMissingLandmark lm]) := by
  simp [process_frame, h]

/-- frame_count is bumped by exactly one on every call. -/
theorem sq_process_frame_frame_count (s : State) (f : Frame) :
    (process_frame s f).1.frame_count = s.frame_count + 1 := by
  cases hfm : f.first_missing with
  | some lm => simp [process_frame, hfm, enterFrame]
  | none => simp [process_frame, hfm]

/-- Stage transitions happen only through the debounced machine. -/
theorem sq_process_frame_stage_cases (s : State) (f : Frame) :
    (process_frame s f).1.stage = s.stage ∨
    (s.stage = Stage.up ∧ (process_frame s f).1.stage = Stage.down ∧
      FRAME_BUFFER ≤ (process_frame s f).1.down_frames) ∨
    (s.stage = Stage.down ∧ (process_frame s f).1.stage = Stage.up ∧
      FRAME_BUFFER ≤ (process_frame s f).1.up_frames) := by
  cases hfm : f.first_missing with
  | some lm => left; simp [process_frame, hfm, enterFrame]
  | none =>
      have h := stageBranch_cases f (countersUpdate f (enterFrame s))
      simp only [countersUpdate_stage, sq_enterFrame_stage,
        countersUpdate_rep_count, sq_enterFrame_rep_count] at h
      simp only [process_frame, hfm, sq_finishLog_stage, sq_finishLog_up_frames,
        sq_finishLog_down_frames]
      tauto

/-- rep_count grows by zero or one on every call. -/
theorem sq_process_frame_rep_cases (s : State) (f : Frame) :
    (process_frame s f).1.rep_count = s.rep_count ∨
    (process_frame s f).1.rep_count = s.rep_count + 1 := by
  cases hfm : f.first_missing with
  | some lm => left; simp [process_frame, hfm, enterFrame]
  | none =>
      have h := stageBranch_cases f (countersUpdate f (enterFrame s))
      simp only [countersUpdate_stage, sq_enterFrame_stage,
        countersUpdate_rep_count, sq_enterFrame_rep_count] at h
      simp only [process_frame, hfm, sq_finishLog_rep_count]
      tauto

/-- On a normal frame the session log is the dedup-append of the
returned feedback; on a missing-landmark frame it is untouched. -/
theorem sq_process_frame_log (s : State) (f : Frame) :
    (process_frame s f).1.feedback_log =
      if (f.first_missing).isSome then s.feedback_log
      else logAppend s.feedback_log (process_frame s f).2 := by
  cases hfm : f.first_missing with
  | some lm => simp [process_frame, hfm, enterFrame]
  | none => simp [process_frame, hfm]

end Squat

namespace Pushup

/-! ### Run-level lemmas for the pushup analyzer -/

theorem runFrom_append (s : State) (fs gs : List Frame) :
    runFrom s (fs ++ gs) = runFrom (runFrom s fs) gs := by
  simp [runFrom, List.foldl_append]

/-- The log after a run is the dedup-append of all feedback emitted on
the non-error frames of the run. -/
theorem runFrom_log (fs : List Frame) :
    ∀ s : State, (runFrom s fs).feedback_log =
      logAppend s.feedback_log (emittedFrom s fs) := by
  induction fs with
  | nil => intro s; simp [runFrom, emittedFrom, logAppend_nil]
  | cons f fs ih =>
      intro s
      have hstep := process_frame_log s f
      have hrw : runFrom s (f :: fs) = runFrom (process_frame s f).1 fs := rfl
      rw [hrw, ih]
      cases hfm : f.first_missing with
      | some lm =>
          rw [hfm] at hstep
          simp only [Option.isSome_some, if_pos] at hstep
          simp [emittedFrom, hfm, hstep]
      | none =>
          rw [hfm] at hstep
          simp only [Option.isSome_none, Bool.false_eq_true, if_false]
            at hstep
          simp [emittedFrom, hfm, hstep, logAppend_append]

/-- One call never shrinks the log. -/
theorem step_log_extends (s : State) (f : Frame) :
    s.feedback_log <+: (process_frame s f).1.feedback_log := by
  rw [process_frame_log]
  split_ifs
  · exact List.prefix_refl _
  · exact logAppend_extends _ _

theorem runFrom_rep_le (fs : List Frame) :
    ∀ s : State, s.rep_count ≤ (runFrom s fs).rep_count := by
  induction fs with
  | nil => intro s; exact Nat.le_refl _
  | cons f fs ih =>
      intro s
      have hrw : runFrom s (f :: fs) = runFrom (process_frame s f).1 fs := rfl
      rw [hrw]
      rcases process_frame_rep_cases s f with h | h
      · exact h ▸ ih (process_frame s f).1
      · exact le_trans (by omega) (ih (process_frame s f).1)

end Pushup

namespace Squat

/-! ### Run-level lemmas for the squat analyzer -/

theorem sq_runFrom_append (s : State) (fs gs : List Frame) :
    runFrom s (fs ++ gs) = runFrom (runFrom s fs) gs := by
  simp [runFrom, List.foldl_append]

/-- The log after a run is the dedup-append of all feedback emitted on
the non-error frames of the run. -/
theorem sq_runFrom_log (fs : List Frame) :
    ∀ s : State, (runFrom s fs).feedback_log =
      logAppend s.feedback_log (emittedFrom s fs) := by
  induction fs with
  | nil => intro s; simp [runFrom, emittedFrom, logAppend_nil]
  | cons f fs ih =>
      intro s
      have hstep := sq_process_frame_log s f
      have hrw : runFrom s (f :: fs) = runFrom (process_frame s f).1 fs := rfl
      rw [hrw, ih]
      cases hfm : f.first_missing with
      | some lm =>
          rw [hfm] at hstep
          simp only [Option.isSome_some, if_pos] at hstep
          simp [emittedFrom, hfm, hstep]
      | none =>
          rw [hfm] at hstep
          simp only [Option.isSome_none, Bool.false_eq_true, if_false]
            at hstep
          simp [emittedFrom, hfm, hstep, logAppend_append]

/-- One call never shrinks the log. -/
theorem sq_step_log_extends (s : State) (f : Frame) :
    s.feedback_log <+: (process_frame s f).1.feedback_log := by
  rw [sq_process_frame_log]
  split_ifs
  · exact List.prefix_refl _
  · exact logAppend_extends _ _

theorem sq_runFrom_rep_le (fs : List Frame) :
    ∀ s : State, s.rep_count ≤ (runFrom s fs).rep_count := by
  induction fs with
  | nil => intro s; exact Nat.le_refl _
  | cons f fs ih =>
      intro s
      have hrw : runFrom s (f :: fs) = runFrom (process_frame s f).1 fs := rfl
      rw [hrw]
      rcases sq_process_frame_rep_cases s f with h | h
      · exact h ▸ ih (process_frame s f).1
      · exact le_trans (by omega) (ih (process_frame s f).1)

/-- During the DOWN dwell, a knee-to-ankle ratio below the caving
threshold puts the knees-out message in the returned feedback of that
frame (no per-rep suppression exists for it). -/
theorem process_frame_kneesOut (s : State) (f : Frame)
    (hdown : s.stage = Stage.down) (hfm : f.first_missing = none)
    (ha : 0 < (f.left_ankle_x - f.right_ankle_x).abs)
    (hr : (f.left_knee_x - f.right_knee_x).abs /
            (f.left_ankle_x - f.right_ankle_x).abs < knee_caving_threshold) :
    Msg.pushKneesOut ∈ (process_frame s f).2 := by
  have hcs : (countersUpdate f (enterFrame s)).stage = Stage.down := by
    simp [hdown]
  simp only [process_frame, hfm, sq_finishLog_snd]
  simp only [stageBranch, hcs]
  rw [if_pos trivial]
  simp only [dwellStep]
  split_ifs <;> simp_all

end Squat

namespace Pushup

/-! ### Behaviour of the two instantaneous checks (for the
suppression analysis) -/

theorem backPair_emit (f : Frame) (s : State)
    (hb : f.body_angle < body_straight_angle_min)
    (hl : ¬ s.last_feedback = some Msg.keepBackStraight) :
    backPair f s =
      ({ s with good_form_bool := false
                last_feedback := some Msg.keepBackStraight },
       [Msg.keepBackStraight]) := by
  simp [backPair, checkBack, hb, hl]

theorem backPair_suppress (f : Frame) (s : State)
    (hb : f.body_angle < body_straight_angle_min)
    (hl : s.last_feedback = some Msg.keepBackStraight) :
    backPair f s = ({ s with good_form_bool := false }, []) := by
  simp [backPair, checkBack, hb, hl]

theorem backPair_clear (f : Frame) (s : State)
    (hb : ¬ f.body_angle < body_straight_angle_min)
    (hl : s.last_feedback = some Msg.keepBackStraight) :
    backPair f s = ({ s with last_feedback := none }, []) := by
  simp [backPair, checkBack, hb, hl]

theorem backPair_skip (f : Frame) (s : State)
    (hb : ¬ f.body_angle < body_straight_angle_min)
    (hl : ¬ s.last_feedback = some Msg.keepBackStraight) :
    backPair f s = (s, []) := by
  simp [backPair, checkBack, hb, hl]

theorem flarePair_emit (f : Frame) (p : State × List Msg)
    (hf : elbow_flare_angle_max < f.elbow_flare_angle)
    (hl : ¬ p.1.last_feedback = some Msg.tuckElbows) :
    flarePair f p =
      ({ p.1 with good_form_bool := false
                  last_feedback := some Msg.tuckElbows },
       p.2 ++ [Msg.tuckElbows]) := by
  simp [flarePair, checkFlare, hf, hl]

theorem flarePair_suppress (f : Frame) (p : State × List Msg)
    (hf : elbow_flare_angle_max < f.elbow_flare_angle)
    (hl : p.1.last_feedback = some Msg.tuckElbows) :
    flarePair f p = ({ p.1 with good_form_bool := false }, p.2) := by
  simp [flarePair, checkFlare, hf, hl]

theorem flarePair_clear (f : Frame) (p : State × List Msg)
    (hf : ¬ elbow_flare_angle_max < f.elbow_flare_angle)
    (hl : p.1.last_feedback = some Msg.tuckElbows) :
    flarePair f p = ({ p.1 with last_feedback := none }, p.2) := by
  simp [flarePair, checkFlare, hf, hl]

theorem flarePair_skip (f : Frame) (p : State × List Msg)
    (hf : ¬ elbow_flare_angle_max < f.elbow_flare_angle)
    (hl : ¬ p.1.last_feedback = some Msg.tuckElbows) :
    flarePair f p = p := by
  simp [flarePair, checkFlare, hf, hl]

/-- The stage machine only ever appends the depth and tempo messages to
the feedback of the frame. -/
theorem stagePair_snd_mem (f : Frame) (sm : Frac) (p : State × List Msg)
    (x : Msg) (h1 : x ≠ Msg.goDeeperPushups) (h2 : x ≠ Msg.slowDownReps) :
    (x ∈ (stagePair f sm p).2 ↔ x ∈ p.2) := by
  simp only [stagePair, stageStep]
  split_ifs <;> simp_all

/-- The streak check only ever appends the praise message. -/
theorem goodFormPair_snd_mem (p : State × List Msg) (x : Msg)
    (h : x ≠ Msg.greatForm) :
    (x ∈ (goodFormPair p).2 ↔ x ∈ p.2) := by
  simp only [goodFormPair, goodFormStep]
  split_ifs <;> simp_all

end Pushup

/-! ### Concrete frames and states used by the scenario theorems -/

/-- A pushup frame with every landmark present, straight body (body
angle 180), no elbow flare (45), elbow angle e and relative_time t. -/
def pushupFrame (t e : Frac) : Pushup.Frame :=
  { has_right_shoulder := true
    has_right_elbow := true
    has_right_wrist := true
    has_right_hip := true
    has_right_ankle := true
    elbow_angle := e
    body_angle := 180
    elbow_flare_angle := 45
    relative_time := t }

/-- The literal scenario of claim C4: FRAME_BUFFER = 3 frames at elbow
angle 170, then 3 at 70, then 3 at 170, relative_time spanning two
seconds (0 to 2 in quarter-second steps). -/
def pushupScenarioFrames : List Pushup.Frame :=
  [pushupFrame 0 170, pushupFrame (1/4) 170, pushupFrame (1/2) 170,
   pushupFrame (3/4) 70, pushupFrame 1 70, pushupFrame (5/4) 70,
   pushupFrame (3/2) 170, pushupFrame (7/4) 170, pushupFrame 2 170]

/-- The C4 scenario extended by three more up frames, enough for the
smoothed elbow angle to rise back above the rep threshold. -/
def pushupScenarioExtended : List Pushup.Frame :=
  pushupScenarioFrames ++
    [pushupFrame (9/4) 170, pushupFrame (5/2) 170, pushupFrame (11/4) 170]

/-- A pushup frame whose right wrist landmark is absent. -/
def pushupFrameMissingWrist : Pushup.Frame :=
  { pushupFrame 1 170 with has_right_wrist := false }

/-- A pushup frame with a sagging back (body angle 140 below 150) and
no elbow flare. -/
def pushupFrameBadBack : Pushup.Frame :=
  { pushupFrame 0 170 with body_angle := 140 }

/-- A pushup frame on which both persistent conditions hold: body angle
140 (below 150) and elbow flare angle 90 (above 80). -/
def pushupFrameBothFaults : Pushup.Frame :=
  { pushupFrame 0 160 with body_angle := 140, elbow_flare_angle := 90 }

/-- A pushup state two down frames into the debounce window. -/
def pushupNearDown : Pushup.State :=
  { Pushup.init with down_frames := 2 }

/-- A standing squat frame: knee angles 180, hips (y 0.5) well above
the knees (y 0.7), knees over ankles (x 0.4 and 0.6). -/
def squatFrameUp : Squat.Frame :=
  { has_left_hip := true
    has_left_knee := true
    has_left_ankle := true
    has_right_hip := true
    has_right_knee := true
    has_right_ankle := true
    left_knee_angle := 180
    right_knee_angle := 180
    left_hip_y := 1/2
    right_hip_y := 1/2
    left_knee_y := 7/10
    right_knee_y := 7/10
    left_knee_x := 2/5
    right_knee_x := 3/5
    left_ankle_x := 2/5
    right_ankle_x := 3/5 }

/-- A shallow squat frame: knee angles 90 (down), but the hips (y 0.6)
stay above the knees (y 0.7), so the hips never reach knee height. -/
def squatFrameShallowDown : Squat.Frame :=
  { squatFrameUp with
      left_knee_angle := 90
      right_knee_angle := 90
      left_hip_y := 3/5
      right_hip_y := 3/5 }

/-- A full shallow squat attempt: three standing frames, three shallow
down frames, three standing frames. -/
def squatShallowRepFrames : List Squat.Frame :=
  [squatFrameUp, squatFrameUp, squatFrameUp,
   squatFrameShallowDown, squatFrameShallowDown, squatFrameShallowDown,
   squatFrameUp, squatFrameUp, squatFrameUp]

/-- The knee-caving frame of the spec scenario: down (knee angles 90),
knees at x 0.45 and 0.55 (distance 0.1) over ankles at x 0.4 and 0.6
(distance 0.2), ratio 0.5 below the caving threshold 0.8. -/
def squatFrameCaving : Squat.Frame :=
  { squatFrameUp with
      left_knee_angle := 90
      right_knee_angle := 90
      left_hip_y := 4/5
      right_hip_y := 4/5
      left_knee_x := 9/20
      right_knee_x := 11/20 }

/-- A squat frame whose left hip landmark is absent. -/
def squatFrameMissingHip : Squat.Frame :=
  { squatFrameUp with has_left_hip := false }

/-- A squat state two down frames into the debounce window. -/
def squatNearDown : Squat.State :=
  { Squat.init with down_frames := 2 }

/-! ### The claims -/

/-- Claim C1, counterexample: on a frame missing a required landmark
both analyzers return a one-element error list, not the empty feedback
list the claim demands (pushup_analyzer.py line 146 returns the list
holding the set with the KeyError, squat_analyzer.py line 115 the list
with the Missing landmark string). -/
theorem C1_counterexample :
    (Pushup.process_frame Pushup.init pushupFrameMissingWrist).2 =
      [Msg.pushupKeyError Landmark.right_wrist] ∧
    (Pushup.process_frame Pushup.init pushupFrameMissingWrist).2 ≠ [] ∧
    (Squat.process_frame Squat.init squatFrameMissingHip).2 =
      [Msg.squatMissingLandmark Landmark.left_hip] ∧
    (Squat.process_frame Squat.init squatFrameMissingHip).2 ≠ [] := by
  decide

/-- Claim C1 as amended: on a frame missing a required landmark,
process_frame returns the one-element error list and leaves rep_count,
stage, up_frames, down_frames and feedback_log unchanged, for both
analyzers. -/
theorem C1_missing_landmark_state :
    (∀ (s : Pushup.State) (f : Pushup.Frame) (lm : Landmark),
       f.first_missing = some lm →
         (Pushup.process_frame s f).2 = [Msg.pushupKeyError lm] ∧
         (Pushup.process_frame s f).1.rep_count = s.rep_count ∧
         (Pushup.process_frame s f).1.stage = s.stage ∧
         (Pushup.process_frame s f).1.up_frames = s.up_frames ∧
         (Pushup.process_frame s f).1.down_frames = s.down_frames ∧
         (Pushup.process_frame s f).1.feedback_log = s.feedback_log) ∧
    (∀ (s : Squat.State) (f : Squat.Frame) (lm : Landmark),
       f.first_missing = some lm →
         (Squat.process_frame s f).2 = [Msg.squatMissingLandmark lm] ∧
         (Squat.process_frame s f).1.rep_count = s.rep_count ∧
         (Squat.process_frame s f).1.stage = s.stage ∧
         (Squat.process_frame s f).1.up_frames = s.up_frames ∧
         (Squat.process_frame s f).1.down_frames = s.down_frames ∧
         (Squat.process_frame s f).1.feedback_log = s.feedback_log) := by
  constructor
  · intro s f lm h
    rw [Pushup.process_frame_missing s f lm h]
    exact ⟨rfl, rfl, rfl, rfl, rfl, rfl⟩
  · intro s f lm h
    rw [Squat.sq_process_frame_missing s f lm h]
    exact ⟨rfl, rfl, rfl, rfl, rfl, rfl⟩

/-- Claim C1, witness for the amended theorem at concrete inputs. -/
theorem C1_missing_landmark_state_witness :
    ((Pushup.process_frame Pushup.init pushupFrameMissingWrist).2 =
       [Msg.pushupKeyError Landmark.right_wrist] ∧
     (Pushup.process_frame Pushup.init pushupFrameMissingWrist).1.rep_count =
       Pushup.init.rep_count ∧
     (Pushup.process_frame Pushup.init pushupFrameMissingWrist).1.stage =
       Pushup.init.stage ∧
     (Pushup.process_frame Pushup.init pushupFrameMissingWrist).1.up_frames =
       Pushup.init.up_frames ∧
     (Pushup.process_frame Pushup.init pushupFrameMissingWrist).1.down_frames =
       Pushup.init.down_frames ∧
     (Pushup.process_frame Pushup.init pushupFrameMissingWrist).1.feedback_log =
       Pushup.init.feedback_log) ∧
    ((Squat.process_frame Squat.init squatFrameMissingHip).2 =
       [Msg.squatMissingLandmark Landmark.left_hip] ∧
     (Squat.process_frame Squat.init squatFrameMissingHip).1.rep_count =
       Squat.init.rep_count ∧
     (Squat.process_frame Squat.init squatFrameMissingHip).1.stage =
       Squat.init.stage ∧
     (Squat.process_frame Squat.init squatFrameMissingHip).1.up_frames =
       Squat.init.up_frames ∧
     (Squat.process_frame Squat.init squatFrameMissingHip).1.down_frames =
       Squat.init.down_frames ∧
     (Squat.process_frame Squat.init squatFrameMissingHip).1.feedback_log =
       Squat.init.feedback_log) :=
  ⟨C1_missing_landmark_state.1 Pushup.init pushupFrameMissingWrist
     Landmark.right_wrist (by decide),
   C1_missing_landmark_state.2 Squat.init squatFrameMissingHip
     Landmark.left_hip (by decide)⟩

/-- Claim C2: what the squat code actually does on the shallow attempt
squatShallowRepFrames, where the hips (y 0.6) never reach knee height
(y 0.7): the dwell is entered (stage DOWN after six frames), yet the
rep is credited and no depth message is produced, because line 96 of
squat_analyzer.py compares the minimum of the hip y values (the highest
hip position in image coordinates) against the knee height instead of
the maximum, inverting the depth test its own comment describes. -/
theorem C2_squat_depth_code_behavior :
    (Squat.runFrom Squat.init (squatShallowRepFrames.take 6)).stage =
      Stage.down ∧
    (Squat.run squatShallowRepFrames).rep_count = 1 ∧
    Msg.goDeeperSquat ∉ (Squat.run squatShallowRepFrames).feedback_log := by
  decide

/-- Claim C3, counterexample: with the caving geometry of the spec
scenario, the knees-out message is returned on the fourth and the fifth
frame of the same DOWN dwell (entered at frame three, no rep completion
in between), so it is not emitted only once per rep attempt. -/
theorem C3_counterexample :
    (Squat.process_frame
        (Squat.run [squatFrameCaving, squatFrameCaving, squatFrameCaving])
        squatFrameCaving).2 = [Msg.pushKneesOut] ∧
    (Squat.process_frame
        (Squat.run [squatFrameCaving, squatFrameCaving, squatFrameCaving,
          squatFrameCaving])
        squatFrameCaving).2 = [Msg.pushKneesOut] ∧
    (Squat.run [squatFrameCaving, squatFrameCaving, squatFrameCaving,
        squatFrameCaving, squatFrameCaving]).stage = Stage.down ∧
    (Squat.run [squatFrameCaving, squatFrameCaving, squatFrameCaving,
        squatFrameCaving, squatFrameCaving]).rep_count = 0 := by
  decide

/-- Claim C3 as amended: during the DOWN dwell the knees-out message is
emitted on every frame whose knee-to-ankle ratio is below the caving
threshold (it repeats on each such frame of the same dwell); only the
session feedback_log records it, at most once per session. -/
theorem C3_kneesOut_behavior :
    (∀ (s : Squat.State) (f : Squat.Frame),
       s.stage = Stage.down → f.first_missing = none →
       0 < (f.left_ankle_x - f.right_ankle_x).abs →
       (f.left_knee_x - f.right_knee_x).abs / (f.left_ankle_x - f.right_ankle_x).abs <
         Squat.knee_caving_threshold →
       Msg.pushKneesOut ∈ (Squat.process_frame s f).2) ∧
    (∀ fs : List Squat.Frame,
       List.count Msg.pushKneesOut (Squat.run fs).feedback_log ≤ 1) := by
  constructor
  · exact fun s f hd hm ha hr => Squat.process_frame_kneesOut s f hd hm ha hr
  · intro fs
    have hnd : (Squat.run fs).feedback_log.Nodup := by
      rw [Squat.run, Squat.sq_runFrom_log]
      exact logAppend_nodup _ _ List.nodup_nil
    exact List.nodup_iff_count_le_one.mp hnd _

/-- Claim C3, witness for the amended theorem at concrete inputs: the
fourth caving frame of a dwell emits the message, and the log of the
five-frame caving run holds it at most once. -/
theorem C3_kneesOut_behavior_witness :
    Msg.pushKneesOut ∈
      (Squat.process_frame
        (Squat.run [squatFrameCaving, squatFrameCaving, squatFrameCaving])
        squatFrameCaving).2 ∧
    List.count Msg.pushKneesOut
      (Squat.run [squatFrameCaving, squatFrameCaving, squatFrameCaving,
        squatFrameCaving, squatFrameCaving]).feedback_log ≤ 1 :=
  ⟨C3_kneesOut_behavior.1
     (Squat.run [squatFrameCaving, squatFrameCaving, squatFrameCaving])
     squatFrameCaving (by decide) (by decide) (by decide) (by decide),
   C3_kneesOut_behavior.2
     [squatFrameCaving, squatFrameCaving, squatFrameCaving,
      squatFrameCaving, squatFrameCaving]⟩

/-- Claim C4, counterexample: the literal 3-3-3 scenario leaves
rep_count at 0 with the analyzer still in DOWN, because exponential
smoothing (factor 0.3) keeps the smoothed elbow angle below the rep
threshold 150 during the three final 170-degree frames (it reaches only
147.4649), so up_frames never reaches the buffer. -/
theorem C4_counterexample :
    (Pushup.run pushupScenarioFrames).rep_count = 0 ∧
    (Pushup.run pushupScenarioFrames).stage = Stage.down := by
  decide

/-- Claim C4 as amended: with six final 170-degree frames instead of
three (smoothing lag), the scenario yields exactly one rep and neither
the depth nor the tempo message. -/
theorem C4_scenario_extended :
    (Pushup.run pushupScenarioExtended).rep_count = 1 ∧
    Msg.goDeeperPushups ∉ (Pushup.run pushupScenarioExtended).feedback_log ∧
    Msg.slowDownReps ∉ (Pushup.run pushupScenarioExtended).feedback_log := by
  decide

/-- Claim C5: for both analyzers, the stage changes on a call only
through the debounced machine: UP to DOWN only with the updated
down-frame counter at FRAME_BUFFER and current stage UP, DOWN to UP
only with the updated up-frame counter at FRAME_BUFFER and current
stage DOWN; in particular no single frame with fresh counters can flip
the stage. -/
theorem C5_stage_transitions :
    (∀ (s : Pushup.State) (f : Pushup.Frame),
       (Pushup.process_frame s f).1.stage ≠ s.stage →
         (s.stage = Stage.up ∧
          (Pushup.process_frame s f).1.stage = Stage.down ∧
          Pushup.FRAME_BUFFER ≤ (Pushup.process_frame s f).1.down_frames) ∨
         (s.stage = Stage.down ∧
          (Pushup.process_frame s f).1.stage = Stage.up ∧
          Pushup.FRAME_BUFFER ≤ (Pushup.process_frame s f).1.up_frames)) ∧
    (∀ (s : Squat.State) (f : Squat.Frame),
       (Squat.process_frame s f).1.stage ≠ s.stage →
         (s.stage = Stage.up ∧
          (Squat.process_frame s f).1.stage = Stage.down ∧
          Squat.FRAME_BUFFER ≤ (Squat.process_frame s f).1.down_frames) ∨
         (s.stage = Stage.down ∧
          (Squat.process_frame s f).1.stage = Stage.up ∧
          Squat.FRAME_BUFFER ≤ (Squat.process_frame s f).1.up_frames)) := by
  constructor
  · intro s f hne
    rcases Pushup.process_frame_stage_cases s f with h | ⟨h1, h2, h3⟩ | ⟨h1, h2, h3⟩
    · exact absurd h hne
    · exact Or.inl ⟨h1, h2, h3⟩
    · exact Or.inr ⟨h1, h2, h3⟩
  · intro s f hne
    rcases Squat.sq_process_frame_stage_cases s f with h | ⟨h1, h2, h3⟩ | ⟨h1, h2, h3⟩
    · exact absurd h hne
    · exact Or.inl ⟨h1, h2, h3⟩
    · exact Or.inr ⟨h1, h2, h3⟩

/-- Claim C5, witness: a third consecutive down frame fires the UP to
DOWN transition of each analyzer from a state two frames into the
debounce window. -/
theorem C5_stage_transitions_witness :
    ((pushupNearDown.stage = Stage.up ∧
      (Pushup.process_frame pushupNearDown (pushupFrame 0 70)).1.stage =
        Stage.down ∧
      Pushup.FRAME_BUFFER ≤
        (Pushup.process_frame pushupNearDown (pushupFrame 0 70)).1.down_frames) ∨
     (pushupNearDown.stage = Stage.down ∧
      (Pushup.process_frame pushupNearDown (pushupFrame 0 70)).1.stage =
        Stage.up ∧
      Pushup.FRAME_BUFFER ≤
        (Pushup.process_frame pushupNearDown (pushupFrame 0 70)).1.up_frames)) ∧
    ((squatNearDown.stage = Stage.up ∧
      (Squat.process_frame squatNearDown squatFrameShallowDown).1.stage =
        Stage.down ∧
      Squat.FRAME_BUFFER ≤
        (Squat.process_frame squatNearDown squatFrameShallowDown).1.down_frames) ∨
     (squatNearDown.stage = Stage.down ∧
      (Squat.process_frame squatNearDown squatFrameShallowDown).1.stage =
        Stage.up ∧
      Squat.FRAME_BUFFER ≤
        (Squat.process_frame squatNearDown squatFrameShallowDown).1.up_frames)) :=
  ⟨C5_stage_transitions.1 pushupNearDown (pushupFrame 0 70) (by decide),
   C5_stage_transitions.2 squatNearDown squatFrameShallowDown (by decide)⟩

/-- Claim C6, counterexample: on a missing-landmark frame the squat
analyzer emits the Missing-landmark string as the feedback of that
frame, yet the string is never appended to feedback_log (the except
branch returns before the log update), so not every distinct emitted
feedback string is recorded. -/
theorem C6_counterexample :
    (Squat.process_frame Squat.init squatFrameMissingHip).2 =
      [Msg.squatMissingLandmark Landmark.left_hip] ∧
    (Squat.process_frame Squat.init squatFrameMissingHip).1.feedback_log =
      [] := by
  decide

/-- Claim C6 as amended: for both analyzers, feedback_log never holds
two equal strings, never loses a previously recorded string, and equals
the first-seen-order deduplication of every feedback string emitted on
the frames that did not hit the missing-landmark error path (error
strings returned by that path are never recorded). -/
theorem C6_feedback_log_invariants :
    (∀ fs : List Pushup.Frame, (Pushup.run fs).feedback_log.Nodup) ∧
    (∀ (fs : List Pushup.Frame) (f : Pushup.Frame),
       (Pushup.run fs).feedback_log <+:
         (Pushup.run (fs ++ [f])).feedback_log) ∧
    (∀ fs : List Pushup.Frame,
       (Pushup.run fs).feedback_log = firstSeen (Pushup.emitted fs)) ∧
    (∀ fs : List Squat.Frame, (Squat.run fs).feedback_log.Nodup) ∧
    (∀ (fs : List Squat.Frame) (f : Squat.Frame),
       (Squat.run fs).feedback_log <+:
         (Squat.run (fs ++ [f])).feedback_log) ∧
    (∀ fs : List Squat.Frame,
       (Squat.run fs).feedback_log = firstSeen (Squat.emitted fs)) := by
  refine ⟨?_, ?_, ?_, ?_, ?_, ?_⟩
  · intro fs
    show (Pushup.runFrom Pushup.init fs).feedback_log.Nodup
    rw [Pushup.runFrom_log]
    exact logAppend_nodup _ _ List.nodup_nil
  · intro fs f
    show (Pushup.runFrom Pushup.init fs).feedback_log <+:
      (Pushup.runFrom Pushup.init (fs ++ [f])).feedback_log
    rw [Pushup.runFrom_append]
    exact Pushup.step_log_extends _ f
  · intro fs
    show (Pushup.runFrom Pushup.init fs).feedback_log =
      firstSeen (Pushup.emittedFrom Pushup.init fs)
    rw [Pushup.runFrom_log]
    rfl
  · intro fs
    show (Squat.runFrom Squat.init fs).feedback_log.Nodup
    rw [Squat.sq_runFrom_log]
    exact logAppend_nodup _ _ List.nodup_nil
  · intro fs f
    show (Squat.runFrom Squat.init fs).feedback_log <+:
      (Squat.runFrom Squat.init (fs ++ [f])).feedback_log
    rw [Squat.sq_runFrom_append]
    exact Squat.sq_step_log_extends _ f
  · intro fs
    show (Squat.runFrom Squat.init fs).feedback_log =
      firstSeen (Squat.emittedFrom Squat.init fs)
    rw [Squat.sq_runFrom_log]
    rfl

/-- Claim C7: rep_count (a natural number, hence non-negative) grows by
at most one on each process_frame call and never decreases, per call
and across whole runs, for both analyzers. -/
theorem C7_rep_count_monotone :
    (∀ (s : Pushup.State) (f : Pushup.Frame),
       s.rep_count ≤ (Pushup.process_frame s f).1.rep_count ∧
       (Pushup.process_frame s f).1.rep_count ≤ s.rep_count + 1) ∧
    (∀ (s : Squat.State) (f : Squat.Frame),
       s.rep_count ≤ (Squat.process_frame s f).1.rep_count ∧
       (Squat.process_frame s f).1.rep_count ≤ s.rep_count + 1) ∧
    (∀ (fs gs : List Pushup.Frame),
       (Pushup.run fs).rep_count ≤ (Pushup.run (fs ++ gs)).rep_count) ∧
    (∀ (fs gs : List Squat.Frame),
       (Squat.run fs).rep_count ≤ (Squat.run (fs ++ gs)).rep_count) := by
  refine ⟨?_, ?_, ?_, ?_⟩
  · intro s f
    rcases Pushup.process_frame_rep_cases s f with h | h <;> omega
  · intro s f
    rcases Squat.sq_process_frame_rep_cases s f with h | h <;> omega
  · intro fs gs
    show (Pushup.runFrom Pushup.init fs).rep_count ≤
      (Pushup.runFrom Pushup.init (fs ++ gs)).rep_count
    rw [Pushup.runFrom_append]
    exact Pushup.runFrom_rep_le gs _
  · intro fs gs
    show (Squat.runFrom Squat.init fs).rep_count ≤
      (Squat.runFrom Squat.init (fs ++ gs)).rep_count
    rw [Squat.sq_runFrom_append]
    exact Squat.sq_runFrom_rep_le gs _

/-- Claim C8, counterexample: on two consecutive frames on which both
persistent conditions hold (body angle 140, flare angle 90), both
messages are returned on both frames, although each condition already
held on the first frame: the shared last_feedback slot is overwritten
by the other message inside the same call, so neither is suppressed on
the repeat frame. -/
theorem C8_counterexample :
    (Pushup.process_frame Pushup.init pushupFrameBothFaults).2 =
      [Msg.keepBackStraight, Msg.tuckElbows] ∧
    (Pushup.process_frame
        (Pushup.process_frame Pushup.init pushupFrameBothFaults).1
        pushupFrameBothFaults).2 =
      [Msg.keepBackStraight, Msg.tuckElbows] := by
  decide

/-- Claim C8 as amended: when at most one of the two persistent
conditions holds on a frame, its message is emitted exactly when it is
not the currently stored last_feedback, and the slot is then set to it
(so it fires at onset, is suppressed while it alone persists, and
re-arms when the condition clears); when neither condition holds, no
persistent message is emitted and a stored persistent message is
cleared.  (When both conditions hold at once the shared slot makes both
messages repeat, as the counterexample shows.) -/
theorem C8_suppression :
    ∀ (s : Pushup.State) (f : Pushup.Frame), f.first_missing = none →
      ((f.body_angle < Pushup.body_straight_angle_min →
        ¬ Pushup.elbow_flare_angle_max < f.elbow_flare_angle →
        ((Msg.keepBackStraight ∈ (Pushup.process_frame s f).2 ↔
            ¬ s.last_feedback = some Msg.keepBackStraight) ∧
         (Pushup.process_frame s f).1.last_feedback =
            some Msg.keepBackStraight)) ∧
       (¬ f.body_angle < Pushup.body_straight_angle_min →
        Pushup.elbow_flare_angle_max < f.elbow_flare_angle →
        ((Msg.tuckElbows ∈ (Pushup.process_frame s f).2 ↔
            ¬ s.last_feedback = some Msg.tuckElbows) ∧
         (Pushup.process_frame s f).1.last_feedback =
            some Msg.tuckElbows)) ∧
       (¬ f.body_angle < Pushup.body_straight_angle_min →
        ¬ Pushup.elbow_flare_angle_max < f.elbow_flare_angle →
        (Msg.keepBackStraight ∉ (Pushup.process_frame s f).2 ∧
         Msg.tuckElbows ∉ (Pushup.process_frame s f).2 ∧
         (Pushup.process_frame s f).1.last_feedback =
           (if s.last_feedback = some Msg.keepBackStraight ∨
               s.last_feedback = some Msg.tuckElbows then none
            else s.last_feedback)))) := by
  intro s f hfm
  simp only [Pushup.process_frame, hfm, Pushup.core]
  refine ⟨?_, ?_, ?_⟩
  · intro hb hf
    by_cases hl : s.last_feedback = some Msg.keepBackStraight
    · rw [Pushup.backPair_suppress f _ hb (by simp [hl])]
      rw [Pushup.flarePair_skip f _ hf (by simp [hl])]
      constructor
      · rw [Pushup.finishLog_snd, Pushup.goodFormPair_snd_mem _ _ (by simp),
            Pushup.stagePair_snd_mem _ _ _ _ (by simp) (by simp)]
        simp [hl]
      · simp [hl]
    · rw [Pushup.backPair_emit f _ hb (by simp [hl])]
      rw [Pushup.flarePair_skip f _ hf (by simp)]
      constructor
      · rw [Pushup.finishLog_snd, Pushup.goodFormPair_snd_mem _ _ (by simp),
            Pushup.stagePair_snd_mem _ _ _ _ (by simp) (by simp)]
        simp [hl]
      · simp
  · intro hb hf
    by_cases hl1 : s.last_feedback = some Msg.keepBackStraight
    · rw [Pushup.backPair_clear f _ hb (by simp [hl1])]
      rw [Pushup.flarePair_emit f _ hf (by simp)]
      constructor
      · rw [Pushup.finishLog_snd, Pushup.goodFormPair_snd_mem _ _ (by simp),
            Pushup.stagePair_snd_mem _ _ _ _ (by simp) (by simp)]
        simp [hl1]
      · simp
    · by_cases hl2 : s.last_feedback = some Msg.tuckElbows
      · rw [Pushup.backPair_skip f _ hb (by simp [hl1])]
        rw [Pushup.flarePair_suppress f _ hf (by simp [hl2])]
        constructor
        · rw [Pushup.finishLog_snd, Pushup.goodFormPair_snd_mem _ _ (by simp),
              Pushup.stagePair_snd_mem _ _ _ _ (by simp) (by simp)]
          simp [hl2]
        · simp [hl2]
      · rw [Pushup.backPair_skip f _ hb (by simp [hl1])]
        rw [Pushup.flarePair_emit f _ hf (by simp [hl2])]
        constructor
        · rw [Pushup.finishLog_snd, Pushup.goodFormPair_snd_mem _ _ (by simp),
              Pushup.stagePair_snd_mem _ _ _ _ (by simp) (by simp)]
          simp [hl2]
        · simp
  · intro hb hf
    by_cases hl1 : s.last_feedback = some Msg.keepBackStraight
    · rw [Pushup.backPair_clear f _ hb (by simp [hl1])]
      rw [Pushup.flarePair_skip f _ hf (by simp)]
      refine ⟨?_, ?_, ?_⟩
      · rw [Pushup.finishLog_snd, Pushup.goodFormPair_snd_mem _ _ (by simp),
            Pushup.stagePair_snd_mem _ _ _ _ (by simp) (by simp)]
        simp
      · rw [Pushup.finishLog_snd, Pushup.goodFormPair_snd_mem _ _ (by simp),
            Pushup.stagePair_snd_mem _ _ _ _ (by simp) (by simp)]
        simp
      · simp [hl1]
    · by_cases hl2 : s.last_feedback = some Msg.tuckElbows
      · rw [Pushup.backPair_skip f _ hb (by simp [hl1])]
        rw [Pushup.flarePair_clear f _ hf (by simp [hl2])]
        refine ⟨?_, ?_, ?_⟩
        · rw [Pushup.finishLog_snd, Pushup.goodFormPair_snd_mem _ _ (by simp),
              Pushup.stagePair_snd_mem _ _ _ _ (by simp) (by simp)]
          simp
        · rw [Pushup.finishLog_snd, Pushup.goodFormPair_snd_mem _ _ (by simp),
              Pushup.stagePair_snd_mem _ _ _ _ (by simp) (by simp)]
          simp
        · simp [hl1, hl2]
      · rw [Pushup.backPair_skip f _ hb (by simp [hl1])]
        rw [Pushup.flarePair_skip f _ hf (by simp [hl2])]
        refine ⟨?_, ?_, ?_⟩
        · rw [Pushup.finishLog_snd, Pushup.goodFormPair_snd_mem _ _ (by simp),
              Pushup.stagePair_snd_mem _ _ _ _ (by simp) (by simp)]
          simp
        · rw [Pushup.finishLog_snd, Pushup.goodFormPair_snd_mem _ _ (by simp),
              Pushup.stagePair_snd_mem _ _ _ _ (by simp) (by simp)]
          simp
        · simp [hl1, hl2]

/-- Claim C8, witness for the amended theorem: on a bad-back frame with
no elbow flare, a fresh analyzer emits the back message (its slot was
empty) and stores it as last_feedback. -/
theorem C8_suppression_witness :
    (Msg.keepBackStraight ∈
        (Pushup.process_frame Pushup.init pushupFrameBadBack).2 ↔
      ¬ Pushup.init.last_feedback = some Msg.keepBackStraight) ∧
    (Pushup.process_frame Pushup.init pushupFrameBadBack).1.last_feedback =
      some Msg.keepBackStraight :=
  (C8_suppression Pushup.init pushupFrameBadBack (by decide)).1
    (by decide) (by decide)

/-- Claim C9: calculate_angle always returns a value in the interval
from 0 to 180 degrees.  The definition is literally the claimed
formula (absolute difference of the two arctan2 bearings in degrees,
folded with 360 minus the value above 180), and being a total function
it returns on every input, including the degenerate cases a = b and
b = c, where the numpy convention arctan2 0 0 = 0 applies. -/
theorem C9_calculate_angle_range :
    ∀ a b c : ℝ × ℝ,
      0 ≤ calculate_angle a b c ∧ calculate_angle a b c ≤ 180 := by
  intro a b c
  have hpi : (0 : ℝ) < Real.pi := Real.pi_pos
  have h1 : arctan2 (c.2 - b.2) (c.1 - b.1) ≤ Real.pi := Complex.arg_le_pi _
  have h2 : -Real.pi < arctan2 (c.2 - b.2) (c.1 - b.1) :=
    Complex.neg_pi_lt_arg _
  have h3 : arctan2 (a.2 - b.2) (a.1 - b.1) ≤ Real.pi := Complex.arg_le_pi _
  have h4 : -Real.pi < arctan2 (a.2 - b.2) (a.1 - b.1) :=
    Complex.neg_pi_lt_arg _
  simp only [calculate_angle]
  set r : ℝ := arctan2 (c.2 - b.2) (c.1 - b.1) -
    arctan2 (a.2 - b.2) (a.1 - b.1) with hr
  have habs : (0 : ℝ) ≤ |r * 180 / Real.pi| := abs_nonneg _
  have hlt : |r * 180 / Real.pi| < 360 := by
    have hrabs : |r| < 2 * Real.pi := by
      rw [abs_lt]
      constructor
      · rw [hr]; linarith
      · rw [hr]; linarith
    rw [abs_div, abs_mul, abs_of_pos hpi]
    rw [div_lt_iff₀ hpi]
    have h180 : |(180 : ℝ)| = 180 := by norm_num
    rw [h180]
    nlinarith
  split_ifs with h
  · constructor
    · linarith
    · linarith
  · exact ⟨habs, by linarith⟩

/-- Claim C10, counterexample: a missing-landmark call does change
pushup analyzer state beyond frame_count: good_form_bool is set to true
before the try block, so a state with good_form_bool false (left by a
bad-form frame) is not otherwise unchanged. -/
theorem C10_counterexample :
    (Pushup.process_frame Pushup.init pushupFrameBadBack).1.good_form_bool =
      false ∧
    pushupFrameMissingWrist.first_missing = some Landmark.right_wrist ∧
    (Pushup.process_frame
        (Pushup.process_frame Pushup.init pushupFrameBadBack).1
        pushupFrameMissingWrist).1.good_form_bool = true := by
  decide

/-- Claim C10 as amended: frame_count grows by exactly one on every
call of either analyzer; on a missing-landmark call the resulting state
is exactly the entry state: for the squat analyzer only frame_count
changed, for the pushup analyzer frame_count and the good_form_bool
scratch flag (unconditionally set true before the try block). -/
theorem C10_frame_count :
    (∀ (s : Pushup.State) (f : Pushup.Frame),
       (Pushup.process_frame s f).1.frame_count = s.frame_count + 1) ∧
    (∀ (s : Squat.State) (f : Squat.Frame),
       (Squat.process_frame s f).1.frame_count = s.frame_count + 1) ∧
    (∀ (s : Pushup.State) (f : Pushup.Frame) (lm : Landmark),
       f.first_missing = some lm →
       (Pushup.process_frame s f).1 =
         { s with frame_count := s.frame_count + 1
                  good_form_bool := true }) ∧
    (∀ (s : Squat.State) (f : Squat.Frame) (lm : Landmark),
       f.first_missing = some lm →
       (Squat.process_frame s f).1 =
         { s with frame_count := s.frame_count + 1 }) := by
  refine ⟨?_, ?_, ?_, ?_⟩
  · exact Pushup.process_frame_frame_count
  · exact Squat.sq_process_frame_frame_count
  · intro s f lm h
    rw [Pushup.process_frame_missing s f lm h]
    rfl
  · intro s f lm h
    rw [Squat.sq_process_frame_missing s f lm h]
    rfl

/-- Claim C10, witness for the amended theorem at concrete inputs. -/
theorem C10_frame_count_witness :
    (Pushup.process_frame Pushup.init pushupFrameMissingWrist).1 =
      { Pushup.init with frame_count := Pushup.init.frame_count + 1
                         good_form_bool := true } ∧
    (Squat.process_frame Squat.init squatFrameMissingHip).1 =
      { Squat.init with frame_count := Squat.init.frame_count + 1 } :=
  ⟨C10_frame_count.2.2.1 Pushup.init pushupFrameMissingWrist
     Landmark.right_wrist (by decide),
   C10_frame_count.2.2.2 Squat.init squatFrameMissingHip
     Landmark.left_hip (by decide)⟩

end KineTrack
